import Mathlib

/-!
Shallow embedding of the task-manager backend (layered CRUD service:
task workflow engine, task repository pagination, notification store).
Each definition mirrors one function of the TypeScript source:

* `TaskService.createTask` / `updateTask` / `deleteTask` / `getTasks`
  (src/server/src/config/env.ts, TaskService section)
* `TaskRepository.findWithPagination` / `updateById` / `findOverdueForUser`
  (src/unnamed/part_008)
* `NotificationRepository.markAsRead` / `markAllAsRead` / `getUnreadCount`
  (src/server/src/repositories/notification.repository.ts)
* the zod schemas `updateTaskSchema` / `taskQuerySchema`
  (src/server/src/dtos/auth.dto.ts, task DTO section)

JavaScript value conventions used throughout:
* an optional string field (`string | undefined`) is `Option String`
  (`none` = the field is absent / `undefined`);
* a nullable optional field (`string | null | undefined`) is
  `Option (Option String)` (`none` = `undefined`, `some none` = `null`,
  `some (some s)` = the string `s`);
* JS truthiness of a string is `s ≠ ""`;
* thrown `AppError(message, statusCode)` is `Except.error ⟨message, code⟩`;
  on a thrown error the caller's stores are unchanged, which the
  `...After...` wrappers make explicit;
* Mongo collections are Lean lists, dates are `Nat` timestamps.
-/

namespace TaskApp

abbrev UserId := String
abbrev TaskId := String
abbrev NotifId := String

/-- Task priority enum (`TaskPriority` in src/server/src/config/env.ts). -/
inductive TaskPriority
  | low
  | medium
  | high
  | urgent
deriving DecidableEq

/-- Task status enum (`TaskStatus` in src/server/src/config/env.ts). -/
inductive TaskStatus
  | todo
  | inProgress
  | review
  | completed
deriving DecidableEq

/-- The wire string of a priority (the enum values are stored as strings). -/
def TaskPriority.str : TaskPriority → String
  | .low => "Low"
  | .medium => "Medium"
  | .high => "High"
  | .urgent => "Urgent"

/-- The wire string of a status. -/
def TaskStatus.str : TaskStatus → String
  | .todo => "To Do"
  | .inProgress => "In Progress"
  | .review => "Review"
  | .completed => "Completed"

/-- A user document (`IUser`), restricted to the fields the workflow reads. -/
structure User where
  id : UserId
  email : String
  name : String
  isVerified : Bool
deriving DecidableEq

/-- A task document (`ITask`). `assignedToId = none` models a task with no
assignee (field absent / null in the store). -/
structure Task where
  id : TaskId
  title : String
  description : String
  dueDate : Nat
  priority : TaskPriority
  status : TaskStatus
  creatorId : UserId
  assignedToId : Option UserId
  createdAt : Nat
deriving DecidableEq

/-- Notification kind (`'task_assigned' | 'task_updated'`). -/
inductive NotifType
  | taskAssigned
  | taskUpdated
deriving DecidableEq

/-- A notification document (`INotification`). -/
structure Notification where
  id : NotifId
  userId : UserId
  type : NotifType
  message : String
  taskId : TaskId
  isRead : Bool
  createdAt : Nat
deriving DecidableEq

/-- `AppError(message, statusCode)` from src/server/src/middleware/error.middleware.ts. -/
structure AppError where
  message : String
  statusCode : Nat
deriving DecidableEq

instance {ε α : Type} [DecidableEq ε] [DecidableEq α] : DecidableEq (Except ε α) :=
  fun a b =>
    match a, b with
    | .ok x, .ok y =>
      if h : x = y then .isTrue (by rw [h]) else .isFalse (by simp [h])
    | .error e, .error e' =>
      if h : e = e' then .isTrue (by rw [h]) else .isFalse (by simp [h])
    | .ok _, .error _ => .isFalse (by simp)
    | .error _, .ok _ => .isFalse (by simp)

/-- `UserRepository.findById` (src/unnamed/part_007): lookup by id. -/
def findUserById (users : List User) (id : UserId) : Option User :=
  users.find? (fun u => u.id == id)

/-- `TaskRepository.findById` (src/unnamed/part_008): lookup by id
(population of creator/assignee display data carries no extra state here). -/
def findTaskById (tasks : List Task) (id : TaskId) : Option Task :=
  tasks.find? (fun t => t.id == id)

/-- The validated output of `createTaskSchema`: priority/status have been
defaulted by the schema, `assignedToId` is optional (no null in creation). -/
structure CreateTaskDto where
  title : String
  description : String
  dueDate : Nat
  priority : TaskPriority
  status : TaskStatus
  assignedToId : Option UserId := none
deriving DecidableEq

/-- The validated output of `updateTaskSchema`: every field optional;
`assignedToId` is additionally nullable (`some none` = explicit null,
used to unassign). There is no creator field in the update contract. -/
structure UpdateTaskDto where
  title : Option String := none
  description : Option String := none
  dueDate : Option Nat := none
  priority : Option TaskPriority := none
  status : Option TaskStatus := none
  assignedToId : Option (Option UserId) := none
deriving DecidableEq

/-- The shared assignee-validation block of `TaskService.createTask` and
`TaskService.updateTask`: the id must resolve to an existing user (else
404 "Assigned user not found") who is verified (else 400
"Cannot assign task to unverified user"). -/
def validateAssignee (users : List User) (aid : UserId) : Except AppError Unit :=
  match findUserById users aid with
  | none => .error ⟨"Assigned user not found", 404⟩
  | some assignee =>
    if !assignee.isVerified then
      .error ⟨"Cannot assign task to unverified user", 400⟩
    else
      .ok ()

/-- Result of a successful `createTask`: the created task and the task and
notification stores after the call. -/
structure CreateOutcome where
  task : Task
  tasks : List Task
  notifs : List Notification
deriving DecidableEq

/-- The `task_assigned` notification document `TaskService.createTask`
persists (message "You have been assigned a new task: ..."). -/
def createAssignedNotif (nid : NotifId) (aid : UserId) (title : String)
    (tid : TaskId) (now : Nat) : Notification :=
  { id := nid
    userId := aid
    type := .taskAssigned
    message := "You have been assigned a new task: " ++ title
    taskId := tid
    isRead := false
    createdAt := now }

/-- The `task_assigned` notification document `TaskService.updateTask`
persists (message "You have been assigned a task: ..."). -/
def updateAssignedNotif (nid : NotifId) (aid : UserId) (title : String)
    (tid : TaskId) (now : Nat) : Notification :=
  { id := nid
    userId := aid
    type := .taskAssigned
    message := "You have been assigned a task: " ++ title
    taskId := tid
    isRead := false
    createdAt := now }

/-- `TaskService.createTask`. Mirrors the source order: validate the
assignee if one is supplied (JS truthiness guard `if (data.assignedToId)`),
persist the task with `creatorId` fixed to the caller, then create a
`task_assigned` notification iff an assignee was supplied and differs from
the creator. `newTaskId`/`newNotifId`/`now` stand for store-generated
identifiers and the clock. -/
def createTask (users : List User) (tasks : List Task) (notifs : List Notification)
    (data : CreateTaskDto) (creatorId : UserId)
    (newTaskId : TaskId) (newNotifId : NotifId) (now : Nat) :
    Except AppError CreateOutcome :=
  let validation : Except AppError Unit :=
    match data.assignedToId with
    | some aid => if aid = "" then .ok () else validateAssignee users aid
    | none => .ok ()
  match validation with
  | .error e => .error e
  | .ok _ =>
    let task : Task :=
      { id := newTaskId
        title := data.title
        description := data.description
        dueDate := data.dueDate
        priority := data.priority
        status := data.status
        creatorId := creatorId
        assignedToId := data.assignedToId
        createdAt := now }
    let notifs1 : List Notification :=
      match data.assignedToId with
      | some aid =>
        if aid ≠ "" ∧ aid ≠ creatorId then
          notifs ++ [createAssignedNotif newNotifId aid task.title newTaskId now]
        else notifs
      | none => notifs
    .ok ⟨task, tasks ++ [task], notifs1⟩

/-- The document produced by `TaskRepository.updateById`'s
`findByIdAndUpdate(id, data, { new: true })`: supplied fields overwrite,
absent (`undefined`) fields are left alone, and an explicit null
`assignedToId` clears the field. No creator field can be written because
the update contract has none. -/
def applyUpdate (t : Task) (data : UpdateTaskDto) : Task :=
  { t with
    title := data.title.getD t.title
    description := data.description.getD t.description
    dueDate := data.dueDate.getD t.dueDate
    priority := data.priority.getD t.priority
    status := data.status.getD t.status
    assignedToId :=
      match data.assignedToId with
      | none => t.assignedToId
      | some v => v }

/-- `TaskRepository.updateById` (src/unnamed/part_008): update the matching
document in place, returning the updated document, or `none` when no
document has the id. -/
def updateById (tasks : List Task) (id : TaskId) (data : UpdateTaskDto) :
    Option (Task × List Task) :=
  match findTaskById tasks id with
  | none => none
  | some t =>
    let t1 := applyUpdate t data
    some (t1, tasks.map (fun u => if u.id == id then t1 else u))

/-- Result of a successful `updateTask` (the source returns
`{ task, previousAssigneeId, assigneeChanged }`; the stores after the call
are carried alongside). -/
structure UpdateOutcome where
  task : Task
  previousAssigneeId : Option UserId
  assigneeChanged : Bool
  tasks : List Task
  notifs : List Notification
deriving DecidableEq

/-- `TaskService.updateTask`. Mirrors the source order: 404 when the task
is absent; 403 when the caller is not the creator; validate a non-null
supplied assignee; capture the previous assignee id; compute
`assigneeChanged` by the JS strict comparison
`data.assignedToId !== undefined && data.assignedToId !== previousAssigneeId`
(note `null !== undefined` holds in JS, which
`data.assignedToId != previousAssigneeId.map some` reproduces); apply the
patch; create a `task_assigned` notification iff `assigneeChanged` holds,
the patch's assignee is truthy, and it differs from the caller. -/
def updateTask (users : List User) (tasks : List Task) (notifs : List Notification)
    (taskId : TaskId) (data : UpdateTaskDto) (userId : UserId)
    (newNotifId : NotifId) (now : Nat) :
    Except AppError UpdateOutcome :=
  match findTaskById tasks taskId with
  | none => .error ⟨"Task not found", 404⟩
  | some task =>
    if task.creatorId ≠ userId then
      .error ⟨"You are not authorized to update this task", 403⟩
    else
      let validation : Except AppError Unit :=
        match data.assignedToId with
        | some (some aid) => validateAssignee users aid
        | _ => .ok ()
      match validation with
      | .error e => .error e
      | .ok _ =>
        let previousAssigneeId : Option UserId := task.assignedToId
        let assigneeChanged : Bool :=
          data.assignedToId.isSome && data.assignedToId != previousAssigneeId.map some
        match updateById tasks taskId data with
        | none => .error ⟨"Failed to update task", 500⟩
        | some (updatedTask, tasks1) =>
          let notifs1 : List Notification :=
            match data.assignedToId with
            | some (some aid) =>
              if assigneeChanged ∧ aid ≠ "" ∧ aid ≠ userId then
                notifs ++ [updateAssignedNotif newNotifId aid updatedTask.title updatedTask.id now]
              else notifs
            | _ => notifs
          .ok ⟨updatedTask, previousAssigneeId, assigneeChanged, tasks1, notifs1⟩

/-- `TaskService.deleteTask`: 404 when absent, 403 when the caller is not
the creator, otherwise remove the document permanently and return it. -/
def deleteTask (tasks : List Task) (taskId : TaskId) (userId : UserId) :
    Except AppError (Task × List Task) :=
  match findTaskById tasks taskId with
  | none => .error ⟨"Task not found", 404⟩
  | some task =>
    if task.creatorId ≠ userId then
      .error ⟨"You are not authorized to delete this task", 403⟩
    else
      .ok (task, tasks.filter (fun t => t.id ≠ taskId))

/-- The task store after a `createTask` call: a thrown `AppError` leaves
the store untouched. -/
def tasksAfterCreate (users : List User) (tasks : List Task) (notifs : List Notification)
    (data : CreateTaskDto) (creatorId : UserId)
    (newTaskId : TaskId) (newNotifId : NotifId) (now : Nat) : List Task :=
  match createTask users tasks notifs data creatorId newTaskId newNotifId now with
  | .ok r => r.tasks
  | .error _ => tasks

/-- The task store after an `updateTask` call: a thrown `AppError` leaves
the store untouched. -/
def tasksAfterUpdate (users : List User) (tasks : List Task) (notifs : List Notification)
    (taskId : TaskId) (data : UpdateTaskDto) (userId : UserId)
    (newNotifId : NotifId) (now : Nat) : List Task :=
  match updateTask users tasks notifs taskId data userId newNotifId now with
  | .ok r => r.tasks
  | .error _ => tasks

/-- The notification store after an `updateTask` call. -/
def notifsAfterUpdate (users : List User) (tasks : List Task) (notifs : List Notification)
    (taskId : TaskId) (data : UpdateTaskDto) (userId : UserId)
    (newNotifId : NotifId) (now : Nat) : List Notification :=
  match updateTask users tasks notifs taskId data userId newNotifId now with
  | .ok r => r.notifs
  | .error _ => notifs

/-- The task store after a `deleteTask` call: a thrown `AppError` leaves
the store untouched. -/
def tasksAfterDelete (tasks : List Task) (taskId : TaskId) (userId : UserId) : List Task :=
  match deleteTask tasks taskId userId with
  | .ok r => r.2
  | .error _ => tasks

/-- `TaskFilters` (src/server/src/config/env.ts): the optional filter
fields the repository accepts. -/
structure TaskFilters where
  status : Option TaskStatus := none
  priority : Option TaskPriority := none
  creatorId : Option UserId := none
  assignedToId : Option UserId := none
  overdue : Option Bool := none
deriving DecidableEq

/-- A condition the Mongo query can put on the status field: equality
(`status: s`) or `$ne`. -/
inductive StatusCond
  | eq (s : TaskStatus)
  | ne (s : TaskStatus)
deriving DecidableEq

/-- The Mongo filter document `TaskRepository.findWithPagination` builds. -/
structure MongoTaskQuery where
  status : Option StatusCond := none
  priority : Option TaskPriority := none
  creatorId : Option UserId := none
  assignedToId : Option UserId := none
  dueDateLt : Option Nat := none
deriving DecidableEq

/-- The query-building block of `TaskRepository.findWithPagination`
(src/unnamed/part_008): each truthy filter field adds a condition; the
overdue filter adds `dueDate: { $lt: now }` and then assigns
`status: { $ne: Completed }`, overwriting any status condition set before
it. String filter fields are guarded by JS truthiness (`""` is falsy). -/
def buildTaskQuery (filters : TaskFilters) (now : Nat) : MongoTaskQuery :=
  let q : MongoTaskQuery := {}
  let q := match filters.status with
    | some s => { q with status := some (.eq s) }
    | none => q
  let q := match filters.priority with
    | some p => { q with priority := some p }
    | none => q
  let q := match filters.creatorId with
    | some c => if c ≠ "" then { q with creatorId := some c } else q
    | none => q
  let q := match filters.assignedToId with
    | some a => if a ≠ "" then { q with assignedToId := some a } else q
    | none => q
  match filters.overdue with
  | some true => { q with dueDateLt := some now, status := some (.ne .completed) }
  | _ => q

/-- Whether a status satisfies a status condition. -/
def statusCondHolds (c : StatusCond) (s : TaskStatus) : Bool :=
  match c with
  | .eq s0 => s == s0
  | .ne s0 => s != s0

/-- Whether a task document matches a Mongo filter document (equality on a
reference field matches only a document whose field equals the value; a
document with no assignee does not match an `assignedToId` equality). -/
def taskMatches (q : MongoTaskQuery) (t : Task) : Bool :=
  (match q.status with
   | some c => statusCondHolds c t.status
   | none => true) &&
  (match q.priority with
   | some p => t.priority == p
   | none => true) &&
  (match q.creatorId with
   | some c => t.creatorId == c
   | none => true) &&
  (match q.assignedToId with
   | some a => t.assignedToId == some a
   | none => true) &&
  (match q.dueDateLt with
   | some d => t.dueDate < d
   | none => true)

/-- The sortable fields of `taskQuerySchema`. -/
inductive SortField
  | dueDate
  | createdAt
  | priority
  | status
  | title
deriving DecidableEq

/-- Sort direction. -/
inductive SortOrder
  | asc
  | desc
deriving DecidableEq

/-- Lexicographic order on character lists by code point (the document
store's plain string comparison). -/
def strLeChars : List Char → List Char → Bool
  | [], _ => true
  | _ :: _, [] => false
  | a :: as, b :: bs =>
    if a.val < b.val then true
    else if b.val < a.val then false
    else strLeChars as bs

/-- Lexicographic order on strings by code point. -/
def strLe (a b : String) : Bool :=
  strLeChars a.data b.data

/-- Ascending comparison on a sort field; string-valued fields (title,
priority, status) compare by their stored wire strings as in the document
store. -/
def sortKeyLe (f : SortField) (a b : Task) : Bool :=
  match f with
  | .dueDate => a.dueDate ≤ b.dueDate
  | .createdAt => a.createdAt ≤ b.createdAt
  | .priority => strLe a.priority.str b.priority.str
  | .status => strLe a.status.str b.status.str
  | .title => strLe a.title b.title

/-- The `.sort(sortObj)` step: order the matching documents by the chosen
field and direction (any ordering permutation of the input; sorting is
modelled with insertion sort). -/
def sortTasks (f : SortField) (ord : SortOrder) (ts : List Task) : List Task :=
  match ord with
  | .asc => ts.insertionSort (fun a b => sortKeyLe f a b = true)
  | .desc => ts.insertionSort (fun a b => sortKeyLe f b a = true)

/-- The pagination block of a `PaginatedResult` (src/unnamed/part_008). -/
structure Pagination where
  total : Nat
  page : Nat
  limit : Nat
  totalPages : Nat
  hasNextPage : Bool
  hasPrevPage : Bool
deriving DecidableEq

/-- `PaginatedResult<ITaskDocument>`. -/
structure PaginatedTasks where
  data : List Task
  pagination : Pagination
deriving DecidableEq

/-- `TaskRepository.findWithPagination`: filter, sort, then
`skip((page-1)*limit).limit(limit)`; `total` counts all matching
documents; `totalPages = Math.ceil(total / limit)`;
`hasNextPage = page < totalPages`; `hasPrevPage = page > 1`. -/
def findWithPagination (tasks : List Task) (page limit : Nat)
    (sortBy : SortField) (sortOrder : SortOrder)
    (filters : TaskFilters) (now : Nat) : PaginatedTasks :=
  let skip := (page - 1) * limit
  let q := buildTaskQuery filters now
  let matching := tasks.filter (taskMatches q)
  let data := ((sortTasks sortBy sortOrder matching).drop skip).take limit
  let total := matching.length
  let totalPages := (total + limit - 1) / limit
  { data := data
    pagination :=
      { total := total
        page := page
        limit := limit
        totalPages := totalPages
        hasNextPage := page < totalPages
        hasPrevPage := page > 1 } }

/-- The Mongo query of `TaskRepository.findOverdueForUser`:
`$or: [{creatorId: userId}, {assignedToId: userId}]`, `dueDate: {$lt: now}`,
`status: {$ne: Completed}`. -/
def overdueForUserQuery (userId : UserId) (now : Nat) (t : Task) : Bool :=
  (t.creatorId == userId || t.assignedToId == some userId) &&
  t.dueDate < now && t.status != TaskStatus.completed

/-- `TaskRepository.findOverdueForUser`: the per-user overdue listing with
the same sort/skip/limit/pagination arithmetic as `findWithPagination`. -/
def findOverdueForUser (tasks : List Task) (userId : UserId) (page limit : Nat)
    (sortBy : SortField) (sortOrder : SortOrder) (now : Nat) : PaginatedTasks :=
  let skip := (page - 1) * limit
  let matching := tasks.filter (overdueForUserQuery userId now)
  let data := ((sortTasks sortBy sortOrder matching).drop skip).take limit
  let total := matching.length
  let totalPages := (total + limit - 1) / limit
  { data := data
    pagination :=
      { total := total
        page := page
        limit := limit
        totalPages := totalPages
        hasNextPage := page < totalPages
        hasPrevPage := page > 1 } }

/-- The validated output of `taskQuerySchema`: page/limit numbers within
bounds, a sort field and direction (defaulted), and optional status and
priority filters. The schema declares no creator, assignee, or overdue
parameter. -/
structure TaskQueryDto where
  page : Nat
  limit : Nat
  sortBy : SortField
  sortOrder : SortOrder
  status : Option TaskStatus := none
  priority : Option TaskPriority := none
deriving DecidableEq

/-- The filter object `TaskService.getTasks` builds from the validated
query: only the status and priority fields are ever copied over. -/
def getTasksFilters (q : TaskQueryDto) : TaskFilters :=
  let f : TaskFilters := {}
  let f := match q.status with
    | some s => { f with status := some s }
    | none => f
  match q.priority with
    | some p => { f with priority := some p }
    | none => f

/-- `TaskService.getTasks`: list tasks through `findWithPagination` with
the filters built by `getTasksFilters`. -/
def getTasks (tasks : List Task) (q : TaskQueryDto) (now : Nat) : PaginatedTasks :=
  findWithPagination tasks q.page q.limit q.sortBy q.sortOrder (getTasksFilters q) now

/-- The `z.number().min(1)` pipe on the page parameter of
`taskQuerySchema`. -/
def taskQueryPageOk (page : Int) : Bool :=
  1 ≤ page

/-- The `z.number().min(1).max(100)` pipe on the limit parameter of
`taskQuerySchema`. -/
def taskQueryLimitOk (limit : Int) : Bool :=
  1 ≤ limit && limit ≤ 100

/-- Lookup of a raw query-string parameter. -/
def lookupParam (raw : List (String × String)) (key : String) : Option String :=
  (raw.find? (fun kv => kv.1 == key)).map (fun kv => kv.2)

/-- Decimal digit accumulation; fails on the first non-digit. -/
def decDigitsAux : List Char → Nat → Option Nat
  | [], acc => some acc
  | c :: cs, acc =>
    if c.isDigit then decDigitsAux cs (acc * 10 + (c.toNat - 48)) else none

/-- Decimal integer parse of a query parameter (the `parseInt(val, 10)`
step, restricted to well-formed decimal numerals). -/
def parseDecInt (s : String) : Option Int :=
  match s.data with
  | [] => none
  | '-' :: [] => none
  | '-' :: cs => (decDigitsAux cs 0).map (fun n => -(n : Int))
  | cs => (decDigitsAux cs 0).map (fun n => (n : Int))

/-- `z.enum` parse of the sort field. -/
def parseSortField (s : String) : Option SortField :=
  if s = "dueDate" then some .dueDate
  else if s = "createdAt" then some .createdAt
  else if s = "priority" then some .priority
  else if s = "status" then some .status
  else if s = "title" then some .title
  else none

/-- `z.enum` parse of the sort order. -/
def parseSortOrder (s : String) : Option SortOrder :=
  if s = "asc" then some .asc
  else if s = "desc" then some .desc
  else none

/-- `z.nativeEnum(TaskStatus)` parse. -/
def parseStatus (s : String) : Option TaskStatus :=
  if s = TaskStatus.todo.str then some .todo
  else if s = TaskStatus.inProgress.str then some .inProgress
  else if s = TaskStatus.review.str then some .review
  else if s = TaskStatus.completed.str then some .completed
  else none

/-- `z.nativeEnum(TaskPriority)` parse. -/
def parsePriority (s : String) : Option TaskPriority :=
  if s = TaskPriority.low.str then some .low
  else if s = TaskPriority.medium.str then some .medium
  else if s = TaskPriority.high.str then some .high
  else if s = TaskPriority.urgent.str then some .urgent
  else none

/-- `taskQuerySchema.parse` over a raw query string: each declared key is
read (with the schema's defaults for absent keys) and validated; keys the
schema does not declare — there is no creatorId, assignedToId, or overdue
key — are stripped, as a non-strict zod object strips unknown keys.
Numeric parsing is modelled by decimal integer parse. -/
def parseTaskQuery (raw : List (String × String)) : Option TaskQueryDto := do
  let page ← parseDecInt ((lookupParam raw "page").getD "1")
  guard (taskQueryPageOk page)
  let limit ← parseDecInt ((lookupParam raw "limit").getD "10")
  guard (taskQueryLimitOk limit)
  let sortBy ← match lookupParam raw "sortBy" with
    | none => some SortField.createdAt
    | some s => parseSortField s
  let sortOrder ← match lookupParam raw "sortOrder" with
    | none => some SortOrder.desc
    | some s => parseSortOrder s
  let status ← match lookupParam raw "status" with
    | none => some none
    | some s => (parseStatus s).map some
  let priority ← match lookupParam raw "priority" with
    | none => some none
    | some s => (parsePriority s).map some
  pure { page := page.toNat
         limit := limit.toNat
         sortBy := sortBy
         sortOrder := sortOrder
         status := status
         priority := priority }

/-- The Mongo query `{ userId, isRead: false }` shared by
`NotificationRepository.markAllAsRead` and `getUnreadCount`. -/
def unreadFor (userId : UserId) (n : Notification) : Bool :=
  n.userId == userId && n.isRead == false

/-- `NotificationRepository.markAsRead`:
`findByIdAndUpdate(id, { isRead: true }, { new: true })` — sets the read
flag of the matching notification, whoever it belongs to, and returns the
updated document (or null). -/
def markAsRead (notifs : List Notification) (id : NotifId) :
    Option Notification × List Notification :=
  ((notifs.find? (fun n => n.id == id)).map (fun n => { n with isRead := true }),
   notifs.map (fun n => if n.id == id then { n with isRead := true } else n))

/-- `NotificationController.markAsRead` composed with the service layer:
the controller passes only `req.params.id` to the repository; the
authenticated caller's identity is never consulted. -/
def controllerMarkAsRead (notifs : List Notification) (callerId : UserId)
    (id : NotifId) : Option Notification × List Notification :=
  markAsRead notifs id

/-- `NotificationRepository.markAllAsRead`:
`updateMany({ userId, isRead: false }, { isRead: true })`, returning
`modifiedCount` (every matched document is modified) and the store after. -/
def markAllAsRead (notifs : List Notification) (userId : UserId) :
    Nat × List Notification :=
  ((notifs.filter (unreadFor userId)).length,
   notifs.map (fun n => if unreadFor userId n then { n with isRead := true } else n))

/-- `NotificationRepository.getUnreadCount`:
`countDocuments({ userId, isRead: false })`. -/
def getUnreadCount (notifs : List Notification) (userId : UserId) : Nat :=
  (notifs.filter (unreadFor userId)).length

/-! Concrete fixtures used by witnesses and counterexamples. -/

/-- A verified user who owns the sample task. -/
def aliceUser : User :=
  { id := "alice"
    email := "alice@example.com"
    name := "Alice"
    isVerified := true }

/-- A second verified user. -/
def bobUser : User :=
  { id := "bob"
    email := "bob@example.com"
    name := "Bob"
    isVerified := true }

/-- An unverified user. -/
def carolUser : User :=
  { id := "carol"
    email := "carol@example.com"
    name := "Carol"
    isVerified := false }

/-- The user store of the fixtures. -/
def fixtureUsers : List User :=
  [aliceUser, bobUser, carolUser]

/-- A task created by alice with no assignee. -/
def shipTask : Task :=
  { id := "t1"
    title := "Ship"
    description := "ship it"
    dueDate := 100
    priority := .medium
    status := .todo
    creatorId := "alice"
    assignedToId := none
    createdAt := 1 }

/-- A task created by bob, assigned to alice, completed. -/
def docsTask : Task :=
  { id := "t2"
    title := "Docs"
    description := "write docs"
    dueDate := 200
    priority := .high
    status := .completed
    creatorId := "bob"
    assignedToId := some "alice"
    createdAt := 2 }

/-- The validated query produced by `taskQuerySchema` defaults. -/
def defaultQuery : TaskQueryDto :=
  { page := 1
    limit := 10
    sortBy := .createdAt
    sortOrder := .desc }

/-- A notification addressed to alice, unread. -/
def aliceNotif : Notification :=
  { id := "n1"
    userId := "alice"
    type := .taskAssigned
    message := "m"
    taskId := "t1"
    isRead := false
    createdAt := 3 }

/-- A notification addressed to bob, unread. -/
def bobNotif : Notification :=
  { id := "n2"
    userId := "bob"
    type := .taskUpdated
    message := "m2"
    taskId := "t2"
    isRead := false
    createdAt := 4 }

/-! Helper lemmas shared between claims. -/

/-- Membership is invariant under the sort step. -/
theorem mem_sortTasks {f : SortField} {o : SortOrder} {ts : List Task} {t : Task} :
    t ∈ sortTasks f o ts ↔ t ∈ ts := by
  cases o <;> simp [sortTasks, List.mem_insertionSort]

/-- A task on the returned page is among the matching tasks. -/
theorem mem_of_mem_page {ts : List Task} {f : SortField} {o : SortOrder}
    {skip lim : Nat} {t : Task} (h : t ∈ ((sortTasks f o ts).drop skip).take lim) :
    t ∈ ts :=
  mem_sortTasks.mp (List.mem_of_mem_drop (List.mem_of_mem_take h))

/-- `updateById` on a store that contains the id updates in place. -/
theorem updateById_of_found {tasks : List Task} {id : TaskId} {data : UpdateTaskDto}
    {t : Task} (hfind : findTaskById tasks id = some t) :
    updateById tasks id data =
      some (applyUpdate t data,
        tasks.map (fun u => if u.id == id then applyUpdate t data else u)) := by
  unfold updateById
  rw [hfind]

/-- Elimination principle for a successful `updateTask`: the outcome's
components in terms of the found task and the patch. -/
theorem updateTask_ok_elim
    {users : List User} {tasks : List Task} {notifs : List Notification}
    {taskId : TaskId} {data : UpdateTaskDto} {userId : UserId}
    {nid : NotifId} {now : Nat} {t : Task} {r : UpdateOutcome}
    (hfind : findTaskById tasks taskId = some t)
    (hok : updateTask users tasks notifs taskId data userId nid now = .ok r) :
    t.creatorId = userId ∧
    r.task = applyUpdate t data ∧
    r.previousAssigneeId = t.assignedToId ∧
    r.assigneeChanged =
      (data.assignedToId.isSome && data.assignedToId != t.assignedToId.map some) ∧
    r.tasks = tasks.map (fun u => if u.id == taskId then applyUpdate t data else u) ∧
    (∀ aid, data.assignedToId = some (some aid) →
      r.notifs =
        if r.assigneeChanged = true ∧ aid ≠ "" ∧ aid ≠ userId then
          notifs ++ [updateAssignedNotif nid aid (applyUpdate t data).title
            (applyUpdate t data).id now]
        else notifs) ∧
    ((data.assignedToId = none ∨ data.assignedToId = some none) → r.notifs = notifs) := by
  unfold updateTask at hok
  rw [hfind] at hok
  simp only at hok
  by_cases hcr : t.creatorId = userId
  case neg =>
    rw [if_pos (by exact hcr)] at hok
    exact absurd hok (by simp)
  case pos =>
    rw [if_neg (by simp [hcr])] at hok
    rw [updateById_of_found hfind] at hok
    refine ⟨hcr, ?_⟩
    cases hv : (match data.assignedToId with
      | some (some aid) => validateAssignee users aid
      | _ => Except.ok ()) with
    | error e =>
      rw [hv] at hok
      exact absurd hok (by simp)
    | ok u =>
      rw [hv] at hok
      simp only at hok
      have hr := (Except.ok.inj hok).symm
      subst hr
      refine ⟨rfl, rfl, rfl, rfl, ?_, ?_⟩
      · intro aid ha
        rw [ha]
      · intro ha
        rcases ha with ha | ha <;> rw [ha]

/-- The patch that assigns bob. -/
def assignBobPatch : UpdateTaskDto :=
  { assignedToId := some (some "bob") }

/-- The sample task after assigning bob. -/
def shipTaskAssignedBob : Task :=
  { shipTask with assignedToId := some "bob" }

/-- The outcome of alice assigning bob on the sample task. -/
def shipUpdateOutcome : UpdateOutcome :=
  { task := shipTaskAssignedBob
    previousAssigneeId := none
    assigneeChanged := true
    tasks := [shipTaskAssignedBob]
    notifs := [updateAssignedNotif "n1" "bob" "Ship" "t1" 5] }

/-- C1: for every stored task and every authenticated caller other than its
creator, `updateTask` and `deleteTask` fail with the 403 Forbidden error,
the task and notification stores are left unchanged, and the task is still
present after the failed delete. -/
theorem nonCreator_update_delete_forbidden
    (users : List User) (tasks : List Task) (notifs : List Notification)
    (taskId : TaskId) (data : UpdateTaskDto) (u : UserId)
    (nid : NotifId) (now : Nat) (t : Task)
    (hfind : findTaskById tasks taskId = some t)
    (hne : u ≠ t.creatorId) :
    updateTask users tasks notifs taskId data u nid now =
        .error ⟨"You are not authorized to update this task", 403⟩ ∧
    deleteTask tasks taskId u =
        .error ⟨"You are not authorized to delete this task", 403⟩ ∧
    tasksAfterUpdate users tasks notifs taskId data u nid now = tasks ∧
    notifsAfterUpdate users tasks notifs taskId data u nid now = notifs ∧
    tasksAfterDelete tasks taskId u = tasks ∧
    findTaskById (tasksAfterDelete tasks taskId u) taskId = some t := by
  have hcr : t.creatorId ≠ u := fun h => hne h.symm
  have h1 : updateTask users tasks notifs taskId data u nid now =
      .error ⟨"You are not authorized to update this task", 403⟩ := by
    unfold updateTask
    rw [hfind]
    simp only
    rw [if_pos hcr]
  have h2 : deleteTask tasks taskId u =
      .error ⟨"You are not authorized to delete this task", 403⟩ := by
    unfold deleteTask
    rw [hfind]
    simp only
    rw [if_pos hcr]
  have h3 : tasksAfterDelete tasks taskId u = tasks := by
    unfold tasksAfterDelete
    rw [h2]
  refine ⟨h1, h2, ?_, ?_, h3, ?_⟩
  · unfold tasksAfterUpdate
    rw [h1]
  · unfold notifsAfterUpdate
    rw [h1]
  · rw [h3, hfind]

/-- C1 witness: bob, who is not the creator of alice's task, gets 403 from
both mutation paths and the task survives. -/
theorem nonCreator_update_delete_forbidden_witness :
    updateTask fixtureUsers [shipTask] [] "t1" {} "bob" "n1" 5 =
        .error ⟨"You are not authorized to update this task", 403⟩ ∧
    deleteTask [shipTask] "t1" "bob" =
        .error ⟨"You are not authorized to delete this task", 403⟩ ∧
    tasksAfterUpdate fixtureUsers [shipTask] [] "t1" {} "bob" "n1" 5 = [shipTask] ∧
    notifsAfterUpdate fixtureUsers [shipTask] [] "t1" {} "bob" "n1" 5 = [] ∧
    tasksAfterDelete [shipTask] "t1" "bob" = [shipTask] ∧
    findTaskById (tasksAfterDelete [shipTask] "t1" "bob") "t1" = some shipTask :=
  nonCreator_update_delete_forbidden fixtureUsers [shipTask] [] "t1" {} "bob" "n1" 5
    shipTask (by decide) (by decide)

/-- C2 counterexample: alice's task has no assignee; a patch that sets the
assignee to explicit null yields `assigneeChanged = true` (JS strict
comparison: `null !== undefined`), where the claim requires `false` for a
patch that "repeats the same value". -/
theorem assigneeChanged_null_on_unassigned_counterexample :
    shipTask.assignedToId = none ∧
    shipTask.creatorId = "alice" ∧
    (updateTask fixtureUsers [shipTask] [] "t1"
        { assignedToId := some none } "alice" "n1" 5).map
      (fun r => r.assigneeChanged) = .ok true := by
  refine ⟨rfl, rfl, ?_⟩
  decide

/-- C2 (amended): in a successful update, `assigneeChanged` is true iff the
patch supplies the assignee field and its value differs from the previous
assignee under JS strict comparison, in which explicit null and an absent
assignee are distinct values: null→id, id→null, id→id' give true, omitting
the field or repeating the same id gives false, and setting null on a task
that already has no assignee gives true (null differs from undefined). -/
theorem assigneeChanged_strict_iff
    (users : List User) (tasks : List Task) (notifs : List Notification)
    (taskId : TaskId) (data : UpdateTaskDto) (userId : UserId)
    (nid : NotifId) (now : Nat) (t : Task) (r : UpdateOutcome)
    (hfind : findTaskById tasks taskId = some t)
    (hok : updateTask users tasks notifs taskId data userId nid now = .ok r) :
    r.assigneeChanged = true ↔
      data.assignedToId ≠ none ∧ data.assignedToId ≠ t.assignedToId.map some := by
  obtain ⟨-, -, -, hch, -⟩ := updateTask_ok_elim hfind hok
  rw [hch]
  simp [Option.isSome_iff_ne_none]

/-- C2 witness: alice assigning bob on her unassigned task is a successful
update whose `assigneeChanged` flag obeys the strict-comparison rule. -/
theorem assigneeChanged_strict_iff_witness :
    shipUpdateOutcome.assigneeChanged = true ↔
      assignBobPatch.assignedToId ≠ none ∧
      assignBobPatch.assignedToId ≠ shipTask.assignedToId.map some :=
  assigneeChanged_strict_iff fixtureUsers [shipTask] [] "t1" assignBobPatch "alice"
    "n1" 5 shipTask shipUpdateOutcome (by decide) (by decide)

/-- C3: in a successful update, a `task_assigned` notification is created
iff `assigneeChanged` is true, the patch's new assignee is non-null, and it
differs from the updating user; whenever a conjunct fails the notification
store is unchanged, and a created notification is addressed to the new
assignee. `hids` records that schema-validated assignee identifiers match
a 24-character hex pattern and are therefore nonempty. -/
theorem updateTask_notification_iff
    (users : List User) (tasks : List Task) (notifs : List Notification)
    (taskId : TaskId) (data : UpdateTaskDto) (userId : UserId)
    (nid : NotifId) (now : Nat) (t : Task) (r : UpdateOutcome)
    (hfind : findTaskById tasks taskId = some t)
    (hok : updateTask users tasks notifs taskId data userId nid now = .ok r)
    (hids : ∀ aid, data.assignedToId = some (some aid) → aid ≠ "") :
    ((notifs.length < r.notifs.length) ↔
      (r.assigneeChanged = true ∧
        ∃ aid, data.assignedToId = some (some aid) ∧ aid ≠ userId)) ∧
    (¬ (r.assigneeChanged = true ∧
        ∃ aid, data.assignedToId = some (some aid) ∧ aid ≠ userId) →
      r.notifs = notifs) ∧
    (∀ aid, data.assignedToId = some (some aid) → aid ≠ userId →
      r.assigneeChanged = true →
      r.notifs = notifs ++ [updateAssignedNotif nid aid r.task.title r.task.id now]) := by
  obtain ⟨-, htask, -, -, -, hn1, hn2⟩ := updateTask_ok_elim hfind hok
  match hA : data.assignedToId with
  | none =>
    rw [hn2 (Or.inl hA)]
    refine ⟨by simp, fun _ => rfl, ?_⟩
    intro aid ha
    exact absurd ha (by simp)
  | some none =>
    rw [hn2 (Or.inr hA)]
    refine ⟨by simp, fun _ => rfl, ?_⟩
    intro aid ha
    exact absurd ha (by simp)
  | some (some aid) =>
    have hne : aid ≠ "" := hids aid hA
    have hfacts := hn1 aid hA
    by_cases hc : r.assigneeChanged = true ∧ aid ≠ userId
    · rw [if_pos ⟨hc.1, hne, hc.2⟩] at hfacts
      refine ⟨?_, ?_, ?_⟩
      · rw [hfacts]
        simp only [List.length_append, List.length_cons, List.length_nil]
        exact ⟨fun _ => ⟨hc.1, aid, rfl, hc.2⟩, fun _ => by omega⟩
      · intro hcon
        exact absurd ⟨hc.1, aid, rfl, hc.2⟩ hcon
      · intro aid' ha' _ _
        have haa : aid' = aid := by
          injection ha' with h1
          injection h1 with h2
          exact h2.symm
        rw [haa, hfacts, htask]
    · have hcneg : ¬ (r.assigneeChanged = true ∧ aid ≠ "" ∧ aid ≠ userId) :=
        fun h => hc ⟨h.1, h.2.2⟩
      rw [if_neg hcneg] at hfacts
      refine ⟨?_, fun _ => hfacts, ?_⟩
      · rw [hfacts]
        simp only [lt_self_iff_false, false_iff]
        rintro ⟨hch, aid', ha', hne'⟩
        have haa : aid' = aid := by
          injection ha' with h1
          injection h1 with h2
          exact h2.symm
        rw [haa] at hne'
        exact hc ⟨hch, hne'⟩
      · intro aid' ha' hne' hch
        have haa : aid' = aid := by
          injection ha' with h1
          injection h1 with h2
          exact h2.symm
        rw [haa] at hne'
        exact absurd ⟨hch, hne'⟩ hc

/-- C3 witness: alice assigns bob on her task; a notification is created
(the store grows) and it is the single `task_assigned` record for bob. -/
theorem updateTask_notification_iff_witness :
    (List.length ([] : List Notification) < shipUpdateOutcome.notifs.length) ∧
    shipUpdateOutcome.notifs =
      [] ++ [updateAssignedNotif "n1" "bob" shipUpdateOutcome.task.title
        shipUpdateOutcome.task.id 5] :=
  ⟨(updateTask_notification_iff fixtureUsers [shipTask] [] "t1" assignBobPatch "alice"
      "n1" 5 shipTask shipUpdateOutcome (by decide) (by decide)
      (by intro aid h; injection h with h1; injection h1 with h2; rw [h2.symm] at *; decide)).1.mpr
      ⟨by decide, "bob", rfl, by decide⟩,
    (updateTask_notification_iff fixtureUsers [shipTask] [] "t1" assignBobPatch "alice"
      "n1" 5 shipTask shipUpdateOutcome (by decide) (by decide)
      (by intro aid h; injection h with h1; injection h1 with h2; rw [h2.symm] at *; decide)).2.2
      "bob" rfl (by decide) (by decide)⟩

/-- C5: a successful `updateTask` leaves the creator reference unchanged:
the returned task keeps the found task's creator, and every task in the
store after the call keeps the creator (and id) of a task that was already
in the store — the update contract has no creator field. -/
theorem creator_immutable_under_update
    (users : List User) (tasks : List Task) (notifs : List Notification)
    (taskId : TaskId) (data : UpdateTaskDto) (userId : UserId)
    (nid : NotifId) (now : Nat) (t : Task) (r : UpdateOutcome)
    (hfind : findTaskById tasks taskId = some t)
    (hok : updateTask users tasks notifs taskId data userId nid now = .ok r) :
    r.task.creatorId = t.creatorId ∧
    ∀ t' ∈ r.tasks, ∃ t0, t0 ∈ tasks ∧ t'.creatorId = t0.creatorId ∧ t'.id = t0.id := by
  obtain ⟨-, htask, -, -, htasks, -, -⟩ := updateTask_ok_elim hfind hok
  have htmem : t ∈ tasks := List.mem_of_find?_eq_some hfind
  constructor
  · rw [htask]
    rfl
  · rw [htasks]
    intro t' ht'
    rcases List.mem_map.mp ht' with ⟨u, hu, hfu⟩
    by_cases hid : (u.id == taskId) = true
    · rw [if_pos hid] at hfu
      exact ⟨t, htmem, by rw [hfu.symm]; rfl, by rw [hfu.symm]; rfl⟩
    · rw [if_neg hid] at hfu
      exact ⟨u, hu, by rw [hfu], by rw [hfu]⟩

/-- C5 witness: assigning bob does not change the creator of alice's
returned task. -/
theorem creator_immutable_under_update_witness :
    shipUpdateOutcome.task.creatorId = shipTask.creatorId :=
  (creator_immutable_under_update fixtureUsers [shipTask] [] "t1" assignBobPatch
    "alice" "n1" 5 shipTask shipUpdateOutcome (by decide) (by decide)).1

/-- C4: a supplied non-null (truthy) assignee identifier that resolves to
no user fails createTask/updateTask with 404 "Assigned user not found";
one that resolves to an unverified user fails with 400 "Cannot assign task
to unverified user"; in every failure case the stores are unchanged. The
update clauses assume the task exists and the caller is its creator — the
state in which the assignee validation is reached. -/
theorem assignee_validation_errors :
    (∀ users tasks notifs data creatorId tid nid now aid,
      data.assignedToId = some aid → aid ≠ "" →
      findUserById users aid = none →
      createTask users tasks notifs data creatorId tid nid now =
          .error ⟨"Assigned user not found", 404⟩ ∧
      tasksAfterCreate users tasks notifs data creatorId tid nid now = tasks) ∧
    (∀ users tasks notifs data creatorId tid nid now aid u,
      data.assignedToId = some aid → aid ≠ "" →
      findUserById users aid = some u → u.isVerified = false →
      createTask users tasks notifs data creatorId tid nid now =
          .error ⟨"Cannot assign task to unverified user", 400⟩ ∧
      tasksAfterCreate users tasks notifs data creatorId tid nid now = tasks) ∧
    (∀ users tasks notifs taskId data userId nid now aid t,
      findTaskById tasks taskId = some t → t.creatorId = userId →
      data.assignedToId = some (some aid) →
      findUserById users aid = none →
      updateTask users tasks notifs taskId data userId nid now =
          .error ⟨"Assigned user not found", 404⟩ ∧
      tasksAfterUpdate users tasks notifs taskId data userId nid now = tasks ∧
      notifsAfterUpdate users tasks notifs taskId data userId nid now = notifs) ∧
    (∀ users tasks notifs taskId data userId nid now aid t u,
      findTaskById tasks taskId = some t → t.creatorId = userId →
      data.assignedToId = some (some aid) →
      findUserById users aid = some u → u.isVerified = false →
      updateTask users tasks notifs taskId data userId nid now =
          .error ⟨"Cannot assign task to unverified user", 400⟩ ∧
      tasksAfterUpdate users tasks notifs taskId data userId nid now = tasks ∧
      notifsAfterUpdate users tasks notifs taskId data userId nid now = notifs) := by
  refine ⟨?_, ?_, ?_, ?_⟩
  · intro users tasks notifs data creatorId tid nid now aid hA hne hfu
    have h1 : createTask users tasks notifs data creatorId tid nid now =
        .error ⟨"Assigned user not found", 404⟩ := by
      unfold createTask
      rw [hA]
      simp only
      rw [if_neg hne]
      unfold validateAssignee
      rw [hfu]
    exact ⟨h1, by unfold tasksAfterCreate; rw [h1]⟩
  · intro users tasks notifs data creatorId tid nid now aid u hA hne hfu hv
    have h1 : createTask users tasks notifs data creatorId tid nid now =
        .error ⟨"Cannot assign task to unverified user", 400⟩ := by
      unfold createTask
      rw [hA]
      simp only
      rw [if_neg hne]
      unfold validateAssignee
      rw [hfu]
      simp [hv]
    exact ⟨h1, by unfold tasksAfterCreate; rw [h1]⟩
  · intro users tasks notifs taskId data userId nid now aid t hfind hcr hA hfu
    have h1 : updateTask users tasks notifs taskId data userId nid now =
        .error ⟨"Assigned user not found", 404⟩ := by
      unfold updateTask
      rw [hfind]
      simp only
      rw [if_neg (by simp [hcr]), hA]
      simp only
      unfold validateAssignee
      rw [hfu]
    exact ⟨h1, by unfold tasksAfterUpdate; rw [h1],
      by unfold notifsAfterUpdate; rw [h1]⟩
  · intro users tasks notifs taskId data userId nid now aid t u hfind hcr hA hfu hv
    have h1 : updateTask users tasks notifs taskId data userId nid now =
        .error ⟨"Cannot assign task to unverified user", 400⟩ := by
      unfold updateTask
      rw [hfind]
      simp only
      rw [if_neg (by simp [hcr]), hA]
      simp only
      unfold validateAssignee
      rw [hfu]
      simp [hv]
    exact ⟨h1, by unfold tasksAfterUpdate; rw [h1],
      by unfold notifsAfterUpdate; rw [h1]⟩

/-- C4 witness: assigning the unknown id "ghost" fails with 404 and
assigning unverified carol fails with 400, on both the create and update
paths, with the stores untouched. -/
theorem assignee_validation_errors_witness :
    (createTask fixtureUsers [] [] { title := "N"
                                     description := "n"
                                     dueDate := 9
                                     priority := .low
                                     status := .todo
                                     assignedToId := some "ghost" } "alice" "t9" "n9" 9 =
        .error ⟨"Assigned user not found", 404⟩ ∧
      tasksAfterCreate fixtureUsers [] [] { title := "N"
                                            description := "n"
                                            dueDate := 9
                                            priority := .low
                                            status := .todo
                                            assignedToId := some "ghost" } "alice" "t9" "n9" 9 = []) ∧
    (createTask fixtureUsers [] [] { title := "N"
                                     description := "n"
                                     dueDate := 9
                                     priority := .low
                                     status := .todo
                                     assignedToId := some "carol" } "alice" "t9" "n9" 9 =
        .error ⟨"Cannot assign task to unverified user", 400⟩ ∧
      tasksAfterCreate fixtureUsers [] [] { title := "N"
                                            description := "n"
                                            dueDate := 9
                                            priority := .low
                                            status := .todo
                                            assignedToId := some "carol" } "alice" "t9" "n9" 9 = []) ∧
    (updateTask fixtureUsers [shipTask] [] "t1"
        { assignedToId := some (some "ghost") } "alice" "n9" 9 =
        .error ⟨"Assigned user not found", 404⟩ ∧
      tasksAfterUpdate fixtureUsers [shipTask] [] "t1"
        { assignedToId := some (some "ghost") } "alice" "n9" 9 = [shipTask] ∧
      notifsAfterUpdate fixtureUsers [shipTask] [] "t1"
        { assignedToId := some (some "ghost") } "alice" "n9" 9 = []) ∧
    (updateTask fixtureUsers [shipTask] [] "t1"
        { assignedToId := some (some "carol") } "alice" "n9" 9 =
        .error ⟨"Cannot assign task to unverified user", 400⟩ ∧
      tasksAfterUpdate fixtureUsers [shipTask] [] "t1"
        { assignedToId := some (some "carol") } "alice" "n9" 9 = [shipTask] ∧
      notifsAfterUpdate fixtureUsers [shipTask] [] "t1"
        { assignedToId := some (some "carol") } "alice" "n9" 9 = []) :=
  ⟨assignee_validation_errors.1 fixtureUsers [] [] _ "alice" "t9" "n9" 9 "ghost"
      rfl (by decide) (by decide),
    assignee_validation_errors.2.1 fixtureUsers [] [] _ "alice" "t9" "n9" 9 "carol"
      carolUser rfl (by decide) (by decide) (by decide),
    assignee_validation_errors.2.2.1 fixtureUsers [shipTask] [] "t1" _ "alice" "n9" 9
      "ghost" shipTask (by decide) (by decide) rfl (by decide),
    assignee_validation_errors.2.2.2 fixtureUsers [shipTask] [] "t1" _ "alice" "n9" 9
      "carol" shipTask carolUser (by decide) (by decide) rfl (by decide) (by decide)⟩

/-- C6: for every repository list query with a page size in [1,100] and a
1-based page, the returned pagination reports the matching count as total,
`totalPages = ceil(total / limit)`, `hasNextPage` iff `page < totalPages`,
and `hasPrevPage` iff `page > 1`; and the validated query schema rejects
page < 1, limit < 1 and limit > 100. -/
theorem pagination_arithmetic
    (tasks : List Task) (page limit : Nat) (sb : SortField) (so : SortOrder)
    (filters : TaskFilters) (now : Nat)
    (hl1 : 1 ≤ limit) (hl2 : limit ≤ 100) (hp : 1 ≤ page) :
    ((findWithPagination tasks page limit sb so filters now).pagination.total =
      (tasks.filter (taskMatches (buildTaskQuery filters now))).length) ∧
    ((findWithPagination tasks page limit sb so filters now).pagination.totalPages =
      (tasks.filter (taskMatches (buildTaskQuery filters now))).length ⌈/⌉ limit) ∧
    ((findWithPagination tasks page limit sb so filters now).pagination.hasNextPage = true ↔
      page < (findWithPagination tasks page limit sb so filters now).pagination.totalPages) ∧
    ((findWithPagination tasks page limit sb so filters now).pagination.hasPrevPage = true ↔
      1 < page) ∧
    (∀ p : Int, p < 1 → taskQueryPageOk p = false) ∧
    (∀ l : Int, l < 1 ∨ 100 < l → taskQueryLimitOk l = false) := by
  refine ⟨rfl, (Nat.ceilDiv_eq_add_pred_div _ _).symm, ?_, ?_, ?_, ?_⟩
  · simp [findWithPagination]
  · simp [findWithPagination]
  · intro p hlt
    simp only [taskQueryPageOk, decide_eq_false_iff_not]
    omega
  · intro l hlt
    simp only [taskQueryLimitOk, Bool.and_eq_false_iff, decide_eq_false_iff_not]
    omega

/-- C6 witness: a store of three matching tasks with limit 2 on page 1
reports total 3, totalPages = ceil(3/2) = 2, a next page and no previous
page; the schema bounds reject page 0, limit 0 and limit 101. -/
theorem pagination_arithmetic_witness :
    ((findWithPagination [shipTask, docsTask, shipTaskAssignedBob] 1 2 .dueDate .asc {} 0).pagination.total =
      (List.filter (taskMatches (buildTaskQuery {} 0)) [shipTask, docsTask, shipTaskAssignedBob]).length) ∧
    ((findWithPagination [shipTask, docsTask, shipTaskAssignedBob] 1 2 .dueDate .asc {} 0).pagination.totalPages =
      (List.filter (taskMatches (buildTaskQuery {} 0)) [shipTask, docsTask, shipTaskAssignedBob]).length ⌈/⌉ 2) ∧
    ((findWithPagination [shipTask, docsTask, shipTaskAssignedBob] 1 2 .dueDate .asc {} 0).pagination.hasNextPage = true ↔
      1 < (findWithPagination [shipTask, docsTask, shipTaskAssignedBob] 1 2 .dueDate .asc {} 0).pagination.totalPages) ∧
    ((findWithPagination [shipTask, docsTask, shipTaskAssignedBob] 1 2 .dueDate .asc {} 0).pagination.hasPrevPage = true ↔
      1 < 1) ∧
    taskQueryPageOk 0 = false ∧
    taskQueryLimitOk 0 = false ∧
    taskQueryLimitOk 101 = false :=
  ⟨(pagination_arithmetic [shipTask, docsTask, shipTaskAssignedBob] 1 2 .dueDate .asc {} 0
      (by decide) (by decide) (by decide)).1,
    (pagination_arithmetic [shipTask, docsTask, shipTaskAssignedBob] 1 2 .dueDate .asc {} 0
      (by decide) (by decide) (by decide)).2.1,
    (pagination_arithmetic [shipTask, docsTask, shipTaskAssignedBob] 1 2 .dueDate .asc {} 0
      (by decide) (by decide) (by decide)).2.2.1,
    (pagination_arithmetic [shipTask, docsTask, shipTaskAssignedBob] 1 2 .dueDate .asc {} 0
      (by decide) (by decide) (by decide)).2.2.2.1,
    (pagination_arithmetic [shipTask, docsTask, shipTaskAssignedBob] 1 2 .dueDate .asc {} 0
      (by decide) (by decide) (by decide)).2.2.2.2.1 0 (by decide),
    (pagination_arithmetic [shipTask, docsTask, shipTaskAssignedBob] 1 2 .dueDate .asc {} 0
      (by decide) (by decide) (by decide)).2.2.2.2.2 0 (Or.inl (by decide)),
    (pagination_arithmetic [shipTask, docsTask, shipTaskAssignedBob] 1 2 .dueDate .asc {} 0
      (by decide) (by decide) (by decide)).2.2.2.2.2 101 (Or.inr (by decide))⟩

/-- C7: a task matches the overdue condition iff its due date is strictly
before now and its status is not Completed (a task due exactly now is not
overdue), both in the generic overdue filter and in the per-user overdue
query, which additionally requires the user to be the creator or the
assignee; `findOverdueForUser` returns exactly the tasks matching that
query (its total counts them and every returned task satisfies it). -/
theorem overdue_predicate_characterization :
    (∀ (u : UserId) (now : Nat) (t : Task), overdueForUserQuery u now t = true ↔
      ((t.creatorId = u ∨ t.assignedToId = some u) ∧
        t.dueDate < now ∧ t.status ≠ .completed)) ∧
    (∀ (u : UserId) (now : Nat) (t : Task),
      overdueForUserQuery u now { t with dueDate := now } = false) ∧
    (∀ (now : Nat) (t : Task),
      taskMatches (buildTaskQuery { overdue := some true } now) t = true ↔
      (t.dueDate < now ∧ t.status ≠ .completed)) ∧
    (∀ (now : Nat) (t : Task),
      taskMatches (buildTaskQuery { overdue := some true } now)
        { t with dueDate := now } = false) ∧
    (∀ tasks u page limit sb so now,
      (findOverdueForUser tasks u page limit sb so now).pagination.total =
        (tasks.filter (overdueForUserQuery u now)).length ∧
      ∀ t ∈ (findOverdueForUser tasks u page limit sb so now).data,
        overdueForUserQuery u now t = true) := by
  refine ⟨?_, ?_, ?_, ?_, ?_⟩
  · intro u now t
    simp [overdueForUserQuery, and_assoc]
  · intro u now t
    simp [overdueForUserQuery]
  · intro now t
    simp [taskMatches, buildTaskQuery, statusCondHolds, and_comm]
  · intro now t
    simp [taskMatches, buildTaskQuery, statusCondHolds]
  · intro tasks u page limit sb so now
    refine ⟨rfl, ?_⟩
    intro t ht
    have hmem : t ∈ tasks.filter (overdueForUserQuery u now) := mem_of_mem_page ht
    exact (List.mem_filter.mp hmem).2

/-- C7 witness: with the clock at 150, alice's task due at 100 is overdue
for alice and is the single task returned; bob's completed task is not. -/
theorem overdue_predicate_characterization_witness :
    ((findOverdueForUser [shipTask, docsTask] "alice" 1 10 .dueDate .asc 150).pagination.total =
      (List.filter (overdueForUserQuery "alice" 150) [shipTask, docsTask]).length) ∧
    (overdueForUserQuery "alice" 150 shipTask = true) ∧
    (shipTask.creatorId = "alice" ∨ shipTask.assignedToId = some "alice") ∧
    shipTask.dueDate < 150 ∧ shipTask.status ≠ .completed ∧
    overdueForUserQuery "alice" 150 docsTask = false ∧
    overdueForUserQuery "alice" 100 shipTask = false :=
  ⟨(overdue_predicate_characterization.2.2.2.2 [shipTask, docsTask] "alice" 1 10
      .dueDate .asc 150).1,
    (overdue_predicate_characterization.1 "alice" 150 shipTask).mpr
      (by refine ⟨Or.inl rfl, by decide, by decide⟩),
    Or.inl rfl, by decide, by decide, by decide, by decide⟩

/-- C8 counterexample: the validated list query cannot express a creator
filter — `taskQuerySchema` strips the unknown `creatorId` key and parses
the raw query to the default query — and `getTasks` then returns tasks of
every creator: with two tasks by different creators the reported total is
2 and bob's task is returned even though the raw query supplied a creator
filter for alice. -/
theorem listTasks_creator_filter_counterexample :
    parseTaskQuery [("creatorId", "alice")] = some defaultQuery ∧
    (getTasks [shipTask, docsTask] defaultQuery 0).pagination.total = 2 ∧
    docsTask ∈ (getTasks [shipTask, docsTask] defaultQuery 0).data ∧
    docsTask.creatorId ≠ "alice" := by
  decide

/-- C8 (amended): the list endpoint filters by status and priority only.
For every validated query, the filter object `getTasks` builds carries no
creator, assignee, or overdue condition — the schema has no such keys —
and the page is restricted exactly by the status/priority conditions: the
total counts the tasks matching them and every returned task matches them.
Creator/assignee/overdue scoping exists only in the repository layer and
the dashboard variants. -/
theorem listTasks_status_priority_only
    (tasks : List Task) (q : TaskQueryDto) (now : Nat) :
    ((getTasksFilters q).creatorId = none ∧
     (getTasksFilters q).assignedToId = none ∧
     (getTasksFilters q).overdue = none ∧
     (getTasksFilters q).status = q.status ∧
     (getTasksFilters q).priority = q.priority) ∧
    ((getTasks tasks q now).pagination.total =
      (tasks.filter (fun t =>
        (match q.status with
         | some s => t.status == s
         | none => true) &&
        (match q.priority with
         | some p => t.priority == p
         | none => true))).length) ∧
    (∀ t ∈ (getTasks tasks q now).data,
      (∀ s, q.status = some s → t.status = s) ∧
      (∀ p, q.priority = some p → t.priority = p)) := by
  obtain ⟨page, limit, sb, so, st, pr⟩ := q
  have hpred : ∀ t : Task,
      taskMatches (buildTaskQuery (getTasksFilters ⟨page, limit, sb, so, st, pr⟩) now) t =
      ((match st with
        | some s => t.status == s
        | none => true) &&
       (match pr with
        | some p => t.priority == p
        | none => true)) := by
    intro t
    cases st <;> cases pr <;>
      simp [getTasksFilters, taskMatches, buildTaskQuery, statusCondHolds]
  have hfilters : getTasksFilters ⟨page, limit, sb, so, st, pr⟩ =
      { status := st, priority := pr } := by
    cases st <;> cases pr <;> rfl
  refine ⟨?_, ?_, ?_⟩
  · rw [hfilters]
    exact ⟨rfl, rfl, rfl, rfl, rfl⟩
  · exact congrArg List.length (List.filter_congr (fun t _ => hpred t))
  · intro t ht
    have hmem : t ∈ tasks.filter (taskMatches
        (buildTaskQuery (getTasksFilters ⟨page, limit, sb, so, st, pr⟩) now)) :=
      mem_of_mem_page ht
    have hmatch := (List.mem_filter.mp hmem).2
    rw [hpred t] at hmatch
    rcases Bool.and_eq_true_iff.mp hmatch with ⟨hst, hpr2⟩
    constructor
    · intro s hs
      have hs2 : st = some s := hs
      rw [hs2] at hst
      exact beq_iff_eq.mp hst
    · intro p hp
      have hp2 : pr = some p := hp
      rw [hp2] at hpr2
      exact beq_iff_eq.mp hpr2

/-- C8 witness: with a status filter for To Do over a mixed store, the
page and total are restricted to the single matching task. -/
theorem listTasks_status_priority_only_witness :
    ((getTasksFilters { defaultQuery with status := some .todo }).creatorId = none ∧
     (getTasksFilters { defaultQuery with status := some .todo }).assignedToId = none ∧
     (getTasksFilters { defaultQuery with status := some .todo }).overdue = none ∧
     (getTasksFilters { defaultQuery with status := some .todo }).status =
       ({ defaultQuery with status := some .todo } : TaskQueryDto).status ∧
     (getTasksFilters { defaultQuery with status := some .todo }).priority =
       ({ defaultQuery with status := some .todo } : TaskQueryDto).priority) ∧
    ((getTasks [shipTask, docsTask] { defaultQuery with status := some .todo } 0).pagination.total =
      (List.filter (fun t =>
        (match ({ defaultQuery with status := some .todo } : TaskQueryDto).status with
         | some s => t.status == s
         | none => true) &&
        (match ({ defaultQuery with status := some .todo } : TaskQueryDto).priority with
         | some p => t.priority == p
         | none => true)) [shipTask, docsTask]).length) ∧
    shipTask.status = .todo :=
  ⟨(listTasks_status_priority_only [shipTask, docsTask]
      { defaultQuery with status := some .todo } 0).1,
    (listTasks_status_priority_only [shipTask, docsTask]
      { defaultQuery with status := some .todo } 0).2.1,
    ((listTasks_status_priority_only [shipTask, docsTask]
      { defaultQuery with status := some .todo } 0).2.2 shipTask (by decide)).1
      .todo rfl⟩

/-- C9 counterexample: bob is not the recipient of alice's notification,
yet the single-notification read path sets its read flag: the controller
forwards only the notification id and the repository updates the document
with no ownership check. -/
theorem markAsRead_no_ownership_counterexample :
    aliceNotif.userId ≠ "bob" ∧
    (controllerMarkAsRead [aliceNotif] "bob" "n1").2 =
      [{ aliceNotif with isRead := true }] ∧
    (controllerMarkAsRead [aliceNotif] "bob" "n1").1 =
      some { aliceNotif with isRead := true } := by
  decide

/-- C9 (amended): the single-notification read path enforces no recipient
ownership check: the outcome of the controller's markAsRead is entirely
independent of the calling user, and every stored notification bearing the
requested id ends up read, whoever the caller is. -/
theorem markAsRead_caller_independent
    (notifs : List Notification) (u v : UserId) (id : NotifId) :
    controllerMarkAsRead notifs u id = controllerMarkAsRead notifs v id ∧
    ∀ n ∈ (controllerMarkAsRead notifs u id).2, n.id = id → n.isRead = true := by
  refine ⟨rfl, ?_⟩
  intro n hn hid
  rcases List.mem_map.mp hn with ⟨m, _, hfm⟩
  by_cases hmid : (m.id == id) = true
  · rw [if_pos hmid] at hfm
    rw [hfm.symm]
  · rw [if_neg hmid] at hfm
    rw [hfm] at hmid
    exact absurd (beq_iff_eq.mpr hid) hmid

/-- C9 witness: caller carol's markAsRead of alice's notification equals
caller bob's, and the notification ends up read. -/
theorem markAsRead_caller_independent_witness :
    controllerMarkAsRead [aliceNotif] "bob" "n1" =
      controllerMarkAsRead [aliceNotif] "carol" "n1" ∧
    ({ aliceNotif with isRead := true } : Notification).isRead = true :=
  ⟨(markAsRead_caller_independent [aliceNotif] "bob" "carol" "n1").1,
    (markAsRead_caller_independent [aliceNotif] "bob" "carol" "n1").2
      { aliceNotif with isRead := true } (by decide) (by decide)⟩

/-- After `markAllAsRead`, no notification of the user is unread. -/
theorem not_unreadFor_after_markAll (u : UserId) (notifs : List Notification) :
    ∀ n ∈ (markAllAsRead notifs u).2, unreadFor u n = false := by
  intro n hn
  rcases List.mem_map.mp hn with ⟨m, _, hfm⟩
  by_cases h : unreadFor u m = true
  · rw [if_pos h] at hfm
    rw [hfm.symm]
    simp [unreadFor]
  · rw [if_neg h] at hfm
    rw [hfm.symm]
    simp at h
    exact h

/-- Filtering for unread gives nothing on a store with no unread entries. -/
theorem filter_unread_nil (u : UserId) (l : List Notification)
    (h : ∀ n ∈ l, unreadFor u n = false) :
    l.filter (unreadFor u) = [] := by
  induction l with
  | nil => rfl
  | cons m ms ih =>
    have hm := h m (List.mem_cons_self m ms)
    rw [List.filter_cons, if_neg (by rw [hm]; simp)]
    exact ih (fun n hn => h n (List.mem_cons_of_mem m hn))

/-- Marking is the identity on a store with no unread entries. -/
theorem map_mark_id (u : UserId) (l : List Notification)
    (h : ∀ n ∈ l, unreadFor u n = false) :
    l.map (fun n => if unreadFor u n then { n with isRead := true } else n) = l := by
  induction l with
  | nil => rfl
  | cons m ms ih =>
    have hm := h m (List.mem_cons_self m ms)
    simp only [List.map_cons, hm, Bool.false_eq_true, if_false]
    rw [ih (fun n hn => h n (List.mem_cons_of_mem m hn))]

/-- Marking all of one user's notifications read does not touch another
user's sub-store. -/
theorem filter_other_user_markAll (u v : UserId) (hvu : v ≠ u)
    (notifs : List Notification) :
    (markAllAsRead notifs u).2.filter (fun n => n.userId == v) =
      notifs.filter (fun n => n.userId == v) := by
  show (notifs.map _).filter _ = _
  induction notifs with
  | nil => rfl
  | cons m ms ih =>
    simp only [List.map_cons, List.filter_cons]
    by_cases hm : (m.userId == v) = true
    · have hmv : m.userId = v := beq_iff_eq.mp hm
      have h1 : (m.userId == u) = false :=
        beq_eq_false_iff_ne.mpr (fun he => hvu (by rw [← hmv]; exact he))
      have hf : unreadFor u m = false := by simp [unreadFor, h1]
      rw [hf]
      simp only [Bool.false_eq_true, if_false, hm, if_true]
      rw [ih]
    · have h2 : ((if unreadFor u m = true then { m with isRead := true } else m).userId == v)
          = false := by
        by_cases hmu : unreadFor u m = true
        · simp only [hmu, if_true]
          simp at hm ⊢
          exact hm
        · simp only [hmu, if_false]
          simp at hm ⊢
          exact hm
      simp only [h2, hm]
      simp only [Bool.false_eq_true, if_false]
      rw [ih]

/-- C10: `markAllAsRead(u)` returns exactly `u`'s prior unread count,
afterwards `u`'s unread count is 0, the store keeps its length, no
notification of any other user changes, and an immediate second call
returns 0 and changes nothing. -/
theorem markAllAsRead_complete_idempotent (notifs : List Notification) (u : UserId) :
    (markAllAsRead notifs u).1 = getUnreadCount notifs u ∧
    getUnreadCount (markAllAsRead notifs u).2 u = 0 ∧
    (markAllAsRead notifs u).2.length = notifs.length ∧
    (∀ v, v ≠ u →
      (markAllAsRead notifs u).2.filter (fun n => n.userId == v) =
        notifs.filter (fun n => n.userId == v)) ∧
    markAllAsRead (markAllAsRead notifs u).2 u = (0, (markAllAsRead notifs u).2) := by
  have hall := not_unreadFor_after_markAll u notifs
  refine ⟨rfl, ?_, by simp [markAllAsRead], ?_, ?_⟩
  · unfold getUnreadCount
    rw [filter_unread_nil u _ hall]
    rfl
  · intro v hvu
    exact filter_other_user_markAll u v hvu notifs
  · show ((((markAllAsRead notifs u).2.filter (unreadFor u)).length), _) = _
    rw [filter_unread_nil u _ hall, map_mark_id u _ hall]
    rfl

/-- C10 witness: marking all of alice's notifications read over a store
holding one unread notification for alice and one for bob returns count 1,
zeroes alice's unread count, keeps bob's sub-store intact, and a second
call is a no-op. -/
theorem markAllAsRead_complete_idempotent_witness :
    (markAllAsRead [aliceNotif, bobNotif] "alice").1 =
      getUnreadCount [aliceNotif, bobNotif] "alice" ∧
    getUnreadCount (markAllAsRead [aliceNotif, bobNotif] "alice").2 "alice" = 0 ∧
    (markAllAsRead [aliceNotif, bobNotif] "alice").2.length =
      [aliceNotif, bobNotif].length ∧
    (markAllAsRead [aliceNotif, bobNotif] "alice").2.filter (fun n => n.userId == "bob") =
      [aliceNotif, bobNotif].filter (fun n => n.userId == "bob") ∧
    markAllAsRead (markAllAsRead [aliceNotif, bobNotif] "alice").2 "alice" =
      (0, (markAllAsRead [aliceNotif, bobNotif] "alice").2) :=
  ⟨(markAllAsRead_complete_idempotent [aliceNotif, bobNotif] "alice").1,
    (markAllAsRead_complete_idempotent [aliceNotif, bobNotif] "alice").2.1,
    (markAllAsRead_complete_idempotent [aliceNotif, bobNotif] "alice").2.2.1,
    (markAllAsRead_complete_idempotent [aliceNotif, bobNotif] "alice").2.2.2.1
      "bob" (by decide),
    (markAllAsRead_complete_idempotent [aliceNotif, bobNotif] "alice").2.2.2.2⟩

end TaskApp
